import Mathlib

/-
  Shallow embedding of be/src/vec/exec/vjdbc_connector.cpp (JdbcConnector).

  The foreign JNI side (the JdbcExecutor running in the JVM) is external to the
  connector; every foreign call is modelled by an oracle input recording the
  value it returns and whether it left a pending exception (GetJniExceptionMsg
  turns a pending exception into a non-OK Status).  The connector's own logic -
  flag handling, control flow, type checking, parameter-map construction and
  the post-import cast pipeline - is transcribed from the source.
-/

set_option maxHeartbeats 1600000

namespace VJdbcConnector

/-- Doris primitive logical column types, the cases `_check_type` switches on
(plus `TYPE_MAP`/`TYPE_STRUCT`, which land in the `default` branch). -/
inductive PrimitiveType where
  | TYPE_BOOLEAN | TYPE_TINYINT | TYPE_SMALLINT | TYPE_INT | TYPE_BIGINT | TYPE_LARGEINT
  | TYPE_FLOAT | TYPE_DOUBLE | TYPE_CHAR | TYPE_VARCHAR | TYPE_STRING
  | TYPE_DATE | TYPE_DATEV2 | TYPE_TIMEV2 | TYPE_DATETIME | TYPE_DATETIMEV2
  | TYPE_DECIMALV2 | TYPE_DECIMAL32 | TYPE_DECIMAL64 | TYPE_DECIMAL128I | TYPE_DECIMAL256
  | TYPE_ARRAY | TYPE_JSONB | TYPE_HLL | TYPE_OBJECT
  | TYPE_MAP | TYPE_STRUCT
  deriving DecidableEq, Repr

/-- `TypeDescriptor::is_hll_type`. -/
def PrimitiveType.is_hll_type (p : PrimitiveType) : Bool := p = .TYPE_HLL

/-- `TypeDescriptor::is_json_type`. -/
def PrimitiveType.is_json_type (p : PrimitiveType) : Bool := p = .TYPE_JSONB

/-- `TypeDescriptor::is_bitmap_type` (bitmap columns are declared `TYPE_OBJECT`). -/
def PrimitiveType.is_bitmap_type (p : PrimitiveType) : Bool := p = .TYPE_OBJECT

/-- `doris::Status` as used in this file: only `Status::OK()` and the error
constructors (`InternalError`, and the statuses produced by
`GetJniExceptionMsg`) appear; all errors are collapsed to their message. -/
inductive Status where
  | ok : Status
  | internalError : String → Status
  deriving DecidableEq, Repr

/-- A vectorized `DataType`: a primitive base type, possibly wrapped by
`DataTypeNullable` (`make_nullable`). -/
inductive DataType where
  | base : PrimitiveType → DataType
  | nullable : DataType → DataType
  deriving DecidableEq, Repr

/-- `DataType::is_nullable()`. -/
def DataType.is_nullable : DataType → Bool
  | .nullable _ => true
  | .base _ => false

/-- `make_nullable`: wrap in `DataTypeNullable` unless already nullable. -/
def make_nullable (t : DataType) : DataType :=
  if t.is_nullable then t else .nullable t

/-- A column object (`IColumn`): a freshly created empty column of some base
type, a `ColumnNullable` wrapper, data imported from the foreign block, or the
inner (non-null-wrapped) result of a CAST over a source column. -/
inductive Column where
  | empty : PrimitiveType → Column
  | nullable : Column → Column
  | imported : Nat → Column
  | casted : DataType → Column → Int → Column
  deriving DecidableEq, Repr

/-- `DataType::create_column()`: a nullable type creates a `ColumnNullable`
wrapping its nested type's column. -/
def DataType.create_column : DataType → Column
  | .base p => .empty p
  | .nullable t => .nullable t.create_column

/-- `ColumnNullable::get_nested_column_ptr()` (the source only applies it to
columns it has just produced as nullable cast results). -/
def get_nested_column : Column → Column
  | .nullable c => c
  | c => c

/-- A `SlotDescriptor`: column name, declared primitive type, nullability and
the materialization flag. -/
structure SlotDescriptor where
  col_name : String
  ptype : PrimitiveType
  is_nullable : Bool
  is_materialized : Bool
  deriving DecidableEq, Repr

/-- `slot_desc->get_data_type_ptr()`: the declared data type, nullable-wrapped
when the slot is nullable. -/
def SlotDescriptor.data_type (sd : SlotDescriptor) : DataType :=
  if sd.is_nullable then .nullable (.base sd.ptype) else .base sd.ptype

/-- One entry of a `Block` (`ColumnWithTypeAndName`). -/
structure ColumnWithTypeAndName where
  column : Column
  type : DataType
  name : String
  deriving DecidableEq, Repr

/-- A `Block` is its ordered list of entries. -/
abbrev Block := List ColumnWithTypeAndName

/-- Overwrite the entry at a position of a block (positions past the end are
left untouched; the source never goes past the end). -/
def block_set : Block → Nat → ColumnWithTypeAndName → Block
  | [], _, _ => []
  | _ :: bs, 0, e => e :: bs
  | b :: bs, n + 1, e => b :: block_set bs n e

/-- `block->get_by_position(i).type = t`. -/
def set_type_by_position (b : Block) (i : Nat) (t : DataType) : Block :=
  match b[i]? with
  | some e => block_set b i { e with type := t }
  | none => b

/-- `block->replace_by_position(i, col)`. -/
def replace_by_position (b : Block) (i : Nat) (c : Column) : Block :=
  match b[i]? with
  | some e => block_set b i { e with column := c }
  | none => b

/-- The connector's per-instance cast bookkeeping: the three index maps
(`_map_column_idx_to_cast_idx_*`, newest binding first), the three staging
string-type lists (`_input_*_string_types`) and the three staging column lists
(`str_*_cols`). -/
structure CastState where
  map_column_idx_to_cast_idx_hll : List (Nat × Nat)
  input_hll_string_types : List DataType
  str_hll_cols : List Column
  map_column_idx_to_cast_idx_json : List (Nat × Nat)
  input_json_string_types : List DataType
  str_json_cols : List Column
  map_column_idx_to_cast_idx_bitmap : List (Nat × Nat)
  input_bitmap_string_types : List DataType
  str_bitmap_cols : List Column
  deriving DecidableEq, Repr

/-- The cast bookkeeping right after construction: all maps and lists empty. -/
def CastState.empty : CastState := ⟨[], [], [], [], [], [], [], [], []⟩

/-- Stand-in for `TypeDescriptor::debug_string()` of a declared type. -/
def type_debug_string : PrimitiveType → String
  | .TYPE_BOOLEAN => "BOOLEAN"
  | .TYPE_TINYINT => "TINYINT"
  | .TYPE_SMALLINT => "SMALLINT"
  | .TYPE_INT => "INT"
  | .TYPE_BIGINT => "BIGINT"
  | .TYPE_LARGEINT => "LARGEINT"
  | .TYPE_FLOAT => "FLOAT"
  | .TYPE_DOUBLE => "DOUBLE"
  | .TYPE_CHAR => "CHAR"
  | .TYPE_VARCHAR => "VARCHAR"
  | .TYPE_STRING => "STRING"
  | .TYPE_DATE => "DATE"
  | .TYPE_DATEV2 => "DATEV2"
  | .TYPE_TIMEV2 => "TIMEV2"
  | .TYPE_DATETIME => "DATETIME"
  | .TYPE_DATETIMEV2 => "DATETIMEV2"
  | .TYPE_DECIMALV2 => "DECIMALV2"
  | .TYPE_DECIMAL32 => "DECIMAL32"
  | .TYPE_DECIMAL64 => "DECIMAL64"
  | .TYPE_DECIMAL128I => "DECIMAL128I"
  | .TYPE_DECIMAL256 => "DECIMAL256"
  | .TYPE_ARRAY => "ARRAY"
  | .TYPE_JSONB => "JSONB"
  | .TYPE_HLL => "HLL"
  | .TYPE_OBJECT => "OBJECT"
  | .TYPE_MAP => "MAP"
  | .TYPE_STRUCT => "STRUCT"

/-- The `error_msg` built at the top of `JdbcConnector::_check_type`. -/
def check_type_error_msg (type_str : String) (t : PrimitiveType) (col_name : String) : String :=
  "Fail to convert jdbc type of " ++ type_str ++ " to doris type " ++ type_debug_string t ++
  " on column: " ++ col_name ++
  ". You need to check this column type between external table and doris table."

/-- `JdbcConnector::_check_type`: validate the foreign-reported type name
against the slot's declared type; for the three semi-structured types it also
records a staging entry in the cast bookkeeping. -/
def check_type (cs : CastState) (slot_desc : SlotDescriptor) (type_str : String)
    (column_index : Nat) : Status × CastState :=
  let error_msg := check_type_error_msg type_str slot_desc.ptype slot_desc.col_name
  match slot_desc.ptype with
  | .TYPE_BOOLEAN =>
      if type_str ≠ "java.lang.Boolean" ∧ type_str ≠ "java.lang.Byte" ∧
          type_str ≠ "java.lang.Integer" then
        (.internalError error_msg, cs)
      else (.ok, cs)
  | .TYPE_TINYINT | .TYPE_SMALLINT | .TYPE_INT =>
      if type_str ≠ "java.lang.Short" ∧ type_str ≠ "java.lang.Integer" ∧
          type_str ≠ "java.math.BigDecimal" ∧ type_str ≠ "java.lang.Byte" ∧
          type_str ≠ "com.clickhouse.data.value.UnsignedByte" ∧
          type_str ≠ "com.clickhouse.data.value.UnsignedShort" ∧
          type_str ≠ "java.lang.Long" then
        (.internalError error_msg, cs)
      else (.ok, cs)
  | .TYPE_BIGINT | .TYPE_LARGEINT =>
      if type_str ≠ "java.lang.Long" ∧ type_str ≠ "java.math.BigDecimal" ∧
          type_str ≠ "java.math.BigInteger" ∧ type_str ≠ "java.lang.String" ∧
          type_str ≠ "com.clickhouse.data.value.UnsignedInteger" ∧
          type_str ≠ "com.clickhouse.data.value.UnsignedLong" then
        (.internalError error_msg, cs)
      else (.ok, cs)
  | .TYPE_FLOAT =>
      if type_str ≠ "java.lang.Float" ∧ type_str ≠ "java.math.BigDecimal" then
        (.internalError error_msg, cs)
      else (.ok, cs)
  | .TYPE_DOUBLE =>
      if type_str ≠ "java.lang.Double" ∧ type_str ≠ "java.math.BigDecimal" then
        (.internalError error_msg, cs)
      else (.ok, cs)
  | .TYPE_CHAR | .TYPE_VARCHAR | .TYPE_STRING =>
      (.ok, cs)
  | .TYPE_DATE | .TYPE_DATEV2 | .TYPE_TIMEV2 | .TYPE_DATETIME | .TYPE_DATETIMEV2 =>
      if type_str ≠ "java.sql.Timestamp" ∧ type_str ≠ "java.time.LocalDateTime" ∧
          type_str ≠ "java.sql.Date" ∧ type_str ≠ "java.time.LocalDate" ∧
          type_str ≠ "oracle.sql.TIMESTAMP" ∧ type_str ≠ "java.time.OffsetDateTime" then
        (.internalError error_msg, cs)
      else (.ok, cs)
  | .TYPE_DECIMALV2 | .TYPE_DECIMAL32 | .TYPE_DECIMAL64 | .TYPE_DECIMAL128I
  | .TYPE_DECIMAL256 =>
      if type_str ≠ "java.math.BigDecimal" then
        (.internalError error_msg, cs)
      else (.ok, cs)
  | .TYPE_ARRAY =>
      if type_str ≠ "java.sql.Array" ∧ type_str ≠ "java.lang.String" ∧
          type_str ≠ "java.lang.Object" then
        (.internalError error_msg, cs)
      else (.ok, cs)
  | .TYPE_JSONB =>
      if type_str ≠ "java.lang.String" ∧ type_str ≠ "org.postgresql.util.PGobject" then
        (.internalError error_msg, cs)
      else
        let new_idx := cs.input_json_string_types.length
        let new_type := if slot_desc.is_nullable then
            make_nullable (DataType.base .TYPE_STRING) else DataType.base .TYPE_STRING
        (.ok, { cs with
          map_column_idx_to_cast_idx_json :=
            (column_index, new_idx) :: cs.map_column_idx_to_cast_idx_json,
          input_json_string_types := cs.input_json_string_types ++ [new_type],
          str_json_cols := cs.str_json_cols ++ [new_type.create_column] })
  | .TYPE_HLL =>
      if type_str ≠ "java.lang.String" then
        (.internalError error_msg, cs)
      else
        let new_idx := cs.input_hll_string_types.length
        let new_type := if slot_desc.is_nullable then
            make_nullable (DataType.base .TYPE_STRING) else DataType.base .TYPE_STRING
        (.ok, { cs with
          map_column_idx_to_cast_idx_hll :=
            (column_index, new_idx) :: cs.map_column_idx_to_cast_idx_hll,
          input_hll_string_types := cs.input_hll_string_types ++ [new_type],
          str_hll_cols := cs.str_hll_cols ++ [new_type.create_column] })
  | .TYPE_OBJECT =>
      if type_str ≠ "java.lang.String" then
        (.internalError error_msg, cs)
      else
        let new_idx := cs.input_bitmap_string_types.length
        let new_type := if slot_desc.is_nullable then
            make_nullable (DataType.base .TYPE_STRING) else DataType.base .TYPE_STRING
        (.ok, { cs with
          map_column_idx_to_cast_idx_bitmap :=
            (column_index, new_idx) :: cs.map_column_idx_to_cast_idx_bitmap,
          input_bitmap_string_types := cs.input_bitmap_string_types ++ [new_type],
          str_bitmap_cols := cs.str_bitmap_cols ++ [new_type.create_column] })
  | .TYPE_MAP | .TYPE_STRUCT =>
      (.internalError error_msg, cs)

/-- The spec's type admissibility table (section 6 together with the section 4.2
requirement that the table be reproduced verbatim): for each declared logical
type, the set of acceptable foreign-reported type names; the string family is
unconstrained and unmapped logical types are rejected unconditionally.  This
definition follows the spec's words and is compared against `check_type`. -/
def spec_admissible (t : PrimitiveType) (r : String) : Bool :=
  match t with
  | .TYPE_BOOLEAN =>
      decide (r = "java.lang.Boolean" ∨ r = "java.lang.Byte" ∨ r = "java.lang.Integer")
  | .TYPE_TINYINT | .TYPE_SMALLINT | .TYPE_INT =>
      decide (r = "java.lang.Short" ∨ r = "java.lang.Integer" ∨ r = "java.math.BigDecimal" ∨
        r = "java.lang.Byte" ∨ r = "com.clickhouse.data.value.UnsignedByte" ∨
        r = "com.clickhouse.data.value.UnsignedShort" ∨ r = "java.lang.Long")
  | .TYPE_BIGINT | .TYPE_LARGEINT =>
      decide (r = "java.lang.Long" ∨ r = "java.math.BigDecimal" ∨ r = "java.math.BigInteger" ∨
        r = "java.lang.String" ∨ r = "com.clickhouse.data.value.UnsignedInteger" ∨
        r = "com.clickhouse.data.value.UnsignedLong")
  | .TYPE_FLOAT =>
      decide (r = "java.lang.Float" ∨ r = "java.math.BigDecimal")
  | .TYPE_DOUBLE =>
      decide (r = "java.lang.Double" ∨ r = "java.math.BigDecimal")
  | .TYPE_CHAR | .TYPE_VARCHAR | .TYPE_STRING => true
  | .TYPE_DATE | .TYPE_DATEV2 | .TYPE_TIMEV2 | .TYPE_DATETIME | .TYPE_DATETIMEV2 =>
      decide (r = "java.sql.Timestamp" ∨ r = "java.time.LocalDateTime" ∨ r = "java.sql.Date" ∨
        r = "java.time.LocalDate" ∨ r = "oracle.sql.TIMESTAMP" ∨ r = "java.time.OffsetDateTime")
  | .TYPE_DECIMALV2 | .TYPE_DECIMAL32 | .TYPE_DECIMAL64 | .TYPE_DECIMAL128I
  | .TYPE_DECIMAL256 =>
      decide (r = "java.math.BigDecimal")
  | .TYPE_ARRAY =>
      decide (r = "java.sql.Array" ∨ r = "java.lang.String" ∨ r = "java.lang.Object")
  | .TYPE_JSONB =>
      decide (r = "java.lang.String" ∨ r = "org.postgresql.util.PGobject")
  | .TYPE_HLL => decide (r = "java.lang.String")
  | .TYPE_OBJECT => decide (r = "java.lang.String")
  | .TYPE_MAP | .TYPE_STRUCT => false

/-- Foreign (JNI) operations the connector can issue, recorded as a trace. -/
inductive ForeignOp where
  | construct_executor
  | delete_global_ref
  | call_close
  | call_open_trans
  | call_commit
  | call_rollback
  | call_read
  | call_get_result_column_type_names
  | call_write
  deriving DecidableEq, Repr

/-- The connector's lifecycle flags: `_closed`, `_is_open`, `_is_in_transaction`
and the construction-time `_use_tranaction` (spelling from the source), which no
operation ever modifies. -/
structure ConnectorState where
  closed : Bool
  is_open : Bool
  is_in_transaction : Bool
  use_tranaction : Bool
  deriving DecidableEq, Repr

/-- The state right after the constructor: `_closed = false` and the open and
in-transaction flags at their default `false`. -/
def init_state (use_tx : Bool) : ConnectorState :=
  { closed := false, is_open := false, is_in_transaction := false, use_tranaction := use_tx }

/-- `JdbcConnector::begin_trans`: only acts when `_use_tranaction` is set; calls
the foreign `openTrans` and sets `_is_in_transaction` when no exception is
pending.  `open_trans_exc` is the pending-exception oracle of the foreign call. -/
def begin_trans (open_trans_exc : Option String) (s : ConnectorState) :
    Status × ConnectorState × List ForeignOp :=
  if s.use_tranaction then
    match open_trans_exc with
    | some m => (.internalError m, s, [.call_open_trans])
    | none => (.ok, { s with is_in_transaction := true }, [.call_open_trans])
  else (.ok, s, [])

/-- `JdbcConnector::abort_trans`: fails before any begin; otherwise calls the
foreign `rollbackTrans` and returns its exception status.  It never changes the
lifecycle flags (in particular it does not clear `_is_in_transaction`). -/
def abort_trans (rollback_exc : Option String) (s : ConnectorState) :
    Status × ConnectorState × List ForeignOp :=
  if !s.is_in_transaction then
    (.internalError "Abort transaction before begin trans.", s, [])
  else
    match rollback_exc with
    | some m => (.internalError m, s, [.call_rollback])
    | none => (.ok, s, [.call_rollback])

/-- `JdbcConnector::finish_trans`: only acts when `_use_tranaction` and
`_is_in_transaction` both hold; calls the foreign `commitTrans` and clears
`_is_in_transaction` when no exception is pending. -/
def finish_trans (commit_exc : Option String) (s : ConnectorState) :
    Status × ConnectorState × List ForeignOp :=
  if s.use_tranaction && s.is_in_transaction then
    match commit_exc with
    | some m => (.internalError m, s, [.call_commit])
    | none => (.ok, { s with is_in_transaction := false }, [.call_commit])
  else (.ok, s, [])

/-- `JdbcConnector::close`: sets `_closed`, returns immediately when the
connector was never opened, otherwise aborts a pending transaction, releases
the four class references, calls the foreign `close` and releases the executor
reference.  Note the source never clears `_is_open` or `_is_in_transaction`. -/
def close (rollback_exc close_exc : Option String) (s : ConnectorState) :
    Status × ConnectorState × List ForeignOp :=
  let s1 : ConnectorState := { s with closed := true }
  if !s1.is_open then (.ok, s1, [])
  else
    let (ab_st, s2, tr1) :=
      if s1.is_in_transaction then abort_trans rollback_exc s1 else (.ok, s1, [])
    match ab_st with
    | .internalError m => (.internalError m, s2, tr1)
    | .ok =>
      let tr2 := tr1 ++ [.delete_global_ref, .delete_global_ref, .delete_global_ref,
        .delete_global_ref, .call_close]
      match close_exc with
      | some m => (.internalError m, s2, tr2)
      | none => (.ok, s2, tr2 ++ [.delete_global_ref])

/-- Oracle inputs of `JdbcConnector::open`: `pre_open_exc` collapses every
failure that can occur before `_is_open` is set (environment acquisition, class
and method resolution, jar resolution, serialization, the foreign constructor,
reference promotion); `open_trans_exc` is the `openTrans` oracle of the
`begin_trans` call issued at the end of `open`. -/
structure OpenEnv where
  pre_open_exc : Option String
  open_trans_exc : Option String
  deriving DecidableEq, Repr

/-- `JdbcConnector::open`: returns success immediately when already open;
otherwise performs the setup, sets `_is_open`, and runs `begin_trans`. -/
def open_connector (e : OpenEnv) (s : ConnectorState) :
    Status × ConnectorState × List ForeignOp :=
  if s.is_open then (.ok, s, [])
  else
    match e.pre_open_exc with
    | some m => (.internalError m, s, [])
    | none =>
      let s1 : ConnectorState := { s with is_open := true }
      let (st, s2, tr) := begin_trans e.open_trans_exc s1
      (st, s2, .construct_executor :: tr)

/-- The thrift table-type tag (`TOdbcTableType`), restricted to the variants
relevant here. -/
inductive TOdbcTableType where
  | MYSQL | ORACLE | POSTGRESQL | SQLSERVER | CLICKHOUSE | SAP_HANA | TRINO
  | OCEANBASE | NEBULA
  deriving DecidableEq, Repr

/-- Inner loop of `JdbcConnector::_check_column_type`: walk the slots in
declaration order carrying the materialized-column counter; every materialized
slot is checked against the foreign-reported type name at its materialized
index. -/
def check_column_type_loop (type_names : List String) :
    List (Nat × SlotDescriptor) → Nat → CastState → Status × CastState
  | [], _, cs => (.ok, cs)
  | (i, sd) :: rest, mat_idx, cs =>
    if !sd.is_materialized then check_column_type_loop type_names rest mat_idx cs
    else
      let type_str := type_names.getD mat_idx ""
      match check_type cs sd type_str i with
      | (.ok, cs1) => check_column_type_loop type_names rest (mat_idx + 1) cs1
      | r => r

/-- `JdbcConnector::_check_column_type`: fetch the foreign type-name list, run
`_check_type` on every materialized slot, then surface any pending exception
(`get_types_exc` is the oracle of that final `GetJniExceptionMsg`). -/
def check_column_type (get_types_exc : Option String) (type_names : List String)
    (slots : List SlotDescriptor) (cs : CastState) : Status × CastState :=
  match check_column_type_loop type_names slots.enum 0 cs with
  | (.ok, cs1) =>
    match get_types_exc with
    | some m => (.internalError m, cs1)
    | none => (.ok, cs1)
  | r => r

/-- Oracle inputs of `JdbcConnector::query`: the foreign `read` call's pending
exception and returned column count, and the `_check_column_type` oracles. -/
structure QueryEnv where
  read_exc : Option String
  read_column_count : Int
  type_names : List String
  get_types_exc : Option String
  deriving DecidableEq, Repr

/-- `JdbcConnector::query`: requires the connector open, counts materialized
slots, executes the foreign `read`, fails on schema drift between that count
and the foreign column count, and finally validates column types unless the
table type is the graph-store variant (`NEBULA`). -/
def query (e : QueryEnv) (query_string : String) (table_type : TOdbcTableType)
    (slots : List SlotDescriptor) (s : ConnectorState) (cs : CastState) :
    Status × CastState × List ForeignOp :=
  if !s.is_open then
    (.internalError "Query before open of JdbcConnector.", cs, [])
  else
    let materialize_num := (slots.filter (fun sd => sd.is_materialized)).length
    match e.read_exc with
    | some m =>
      (.internalError ("GetJniExceptionMsg meet error, query=" ++ query_string ++
        ", msg=" ++ m), cs, [.call_read])
    | none =>
      if e.read_column_count ≠ (materialize_num : Int) then
        (.internalError "input and output column num not equal of jdbc query.", cs,
          [.call_read])
      else if table_type ≠ .NEBULA then
        let (st, cs1) := check_column_type e.get_types_exc e.type_names slots cs
        (st, cs1, [.call_read, .call_get_result_column_type_names])
      else (.ok, cs, [.call_read])

/-- Oracle inputs of `JdbcConnector::exec_stmt_write`: a failure of the block
export (`JniConnector::to_java_table`), and the foreign `write` call's return
value and pending exception. -/
structure WriteEnv where
  meta_exc : Option String
  write_ret : Int
  write_exc : Option String
  deriving DecidableEq, Repr

/-- `JdbcConnector::exec_stmt_write`: exports the block, invokes the foreign
`write` (whose integer return value is discarded), and on success stores the
block's own row count into `*num_rows_sent`.  The pair returned is the status
and the value of `*num_rows_sent` after the call. -/
def exec_stmt_write (e : WriteEnv) (block_rows : Nat) (num_rows_sent : Nat) :
    Status × Nat :=
  match e.meta_exc with
  | some m => (.internalError m, num_rows_sent)
  | none =>
    match e.write_exc with
    | some m => (.internalError m, num_rows_sent)
    | none => (.ok, block_rows)

/-- `JdbcConnector::append`: delegates to `exec_stmt_write` and bumps a
counter (no further effect on the reported row count). -/
def append (e : WriteEnv) (block_rows : Nat) (num_rows_sent : Nat) : Status × Nat :=
  exec_stmt_write e block_rows num_rows_sent

/-- The staging string type `_check_type` records for a semi-structured slot
and `_get_reader_params` installs in the block: `DataTypeString`, nullable
when the slot is nullable. -/
def staging_string_type (sd : SlotDescriptor) : DataType :=
  if sd.is_nullable then make_nullable (.base .TYPE_STRING) else .base .TYPE_STRING

/-- Body of the loop of `JdbcConnector::_get_reader_params` over the
enumerated slots.  The four returned lists are, in order, the entries appended
to `columns_nullable`, `columns_replace_string`, `required_fields` and
`columns_types`; the block is returned with the semi-structured staging
replacements applied.  `jni_type_of` stands for `JniConnector::get_jni_type`
(outside this file's source). -/
def get_reader_params_go (jni_type_of : PrimitiveType → String) :
    List (Nat × SlotDescriptor) → Block →
    (List String × List String × List String × List String) × Block
  | [], block => (([], [], [], []), block)
  | (i, slot) :: rest, block =>
    let replace_type : String :=
      if slot.ptype.is_bitmap_type then "bitmap"
      else if slot.ptype.is_hll_type then "hll"
      else if slot.ptype.is_json_type then "jsonb"
      else "not_replace"
    let nullable_entries : List String :=
      if slot.is_materialized then [if slot.is_nullable then "true" else "false"] else []
    let replace_entries : List String :=
      if slot.is_materialized then [replace_type] else []
    let block1 : Block :=
      if slot.is_materialized ∧ replace_type ≠ "not_replace" then
        match block[i]? with
        | some e =>
          block_set block i
            { e with column := (staging_string_type slot).create_column,
                     type := staging_string_type slot }
        | none => block
      else block
    let jni_type : String :=
      if slot.ptype.is_bitmap_type ∨ slot.ptype.is_hll_type ∨ slot.ptype.is_json_type then
        "string"
      else jni_type_of slot.ptype
    let r := get_reader_params_go jni_type_of rest block1
    ((nullable_entries ++ r.1.1, replace_entries ++ r.1.2.1, slot.col_name :: r.1.2.2.1,
      jni_type :: r.1.2.2.2), r.2)

/-- `JdbcConnector::_get_reader_params`: builds the four per-column parameter
lists sent to the foreign `getBlockAddress` call and swaps every materialized
semi-structured column of the block for an empty staging string column. -/
def get_reader_params (jni_type_of : PrimitiveType → String)
    (slots : List SlotDescriptor) (block : Block) :
    (List String × List String × List String × List String) × Block :=
  get_reader_params_go jni_type_of slots.enum block

/-- Oracle inputs of the cast pipeline, indexed by column position: the
foreign `getCurBlockRows` value and pending exception, and the status of the
generic CAST execution. -/
structure CastEnv where
  cur_block_rows : Nat → Int
  cur_block_rows_exc : Nat → Option String
  cast_exec_status : Nat → Status

/-- Modelled from the spec: the generic CAST operation obtained from the
cast-function registry (`SimpleFunctionFactory`, outside src/) is requested
with return type `make_nullable(target)` and, per section 4.5, always produces
a nullable result column regardless of the final column's nullability. -/
def cast_result (target : DataType) (src : Column) (rows : Int) : Column :=
  .nullable (.casted target src rows)

/-- `JdbcConnector::_cast_string_to_hll`: cast the staging string column at
`column_index` to the slot's declared type, set the block's type at that
position to the declared type, and replace the column by the cast result -
unwrapped from its nullable wrapper when the declared type is not nullable. -/
def cast_string_to_hll (slot_desc : SlotDescriptor) (block : Block) (column_index : Nat)
    (rows : Int) (exec_status : Status) : Status × Block :=
  match exec_status with
  | .internalError m => (.internalError m, block)
  | .ok =>
    match block[column_index]? with
    | none => (.ok, block)
    | some entry =>
      let target := slot_desc.data_type
      let res_col := cast_result target entry.column rows
      let b1 := set_type_by_position block column_index target
      if target.is_nullable then (.ok, replace_by_position b1 column_index res_col)
      else (.ok, replace_by_position b1 column_index (get_nested_column res_col))

/-- `JdbcConnector::_cast_string_to_bitmap`: same shape as the HLL cast. -/
def cast_string_to_bitmap (slot_desc : SlotDescriptor) (block : Block) (column_index : Nat)
    (rows : Int) (exec_status : Status) : Status × Block :=
  match exec_status with
  | .internalError m => (.internalError m, block)
  | .ok =>
    match block[column_index]? with
    | none => (.ok, block)
    | some entry =>
      let target := slot_desc.data_type
      let res_col := cast_result target entry.column rows
      let b1 := set_type_by_position block column_index target
      if target.is_nullable then (.ok, replace_by_position b1 column_index res_col)
      else (.ok, replace_by_position b1 column_index (get_nested_column res_col))

/-- `JdbcConnector::_cast_string_to_json` (deprecated legacy path in the
source): same shape as the HLL cast, with a different constant cast operand. -/
def cast_string_to_json (slot_desc : SlotDescriptor) (block : Block) (column_index : Nat)
    (rows : Int) (exec_status : Status) : Status × Block :=
  match exec_status with
  | .internalError m => (.internalError m, block)
  | .ok =>
    match block[column_index]? with
    | none => (.ok, block)
    | some entry =>
      let target := slot_desc.data_type
      let res_col := cast_result target entry.column rows
      let b1 := set_type_by_position block column_index target
      if target.is_nullable then (.ok, replace_by_position b1 column_index res_col)
      else (.ok, replace_by_position b1 column_index (get_nested_column res_col))

/-- One iteration of the `_cast_string_to_special` loop at column `i`: skip a
non-materialized slot, otherwise fetch the foreign current-block row count and
dispatch on the slot's declared type (HLL, then JSON, then bitmap). -/
def cast_special_step (e : CastEnv) (sd : SlotDescriptor) (i : Nat) (block : Block) :
    Status × Block :=
  if !sd.is_materialized then (.ok, block)
  else
    match e.cur_block_rows_exc i with
    | some m => (.internalError m, block)
    | none =>
      let rows := e.cur_block_rows i
      if sd.ptype.is_hll_type then
        cast_string_to_hll sd block i rows (e.cast_exec_status i)
      else if sd.ptype.is_json_type then
        cast_string_to_json sd block i rows (e.cast_exec_status i)
      else if sd.ptype.is_bitmap_type then
        cast_string_to_bitmap sd block i rows (e.cast_exec_status i)
      else (.ok, block)

/-- Loop of `JdbcConnector::_cast_string_to_special` over the column indices:
run the per-column step, propagating the first error. -/
def cast_special_go (e : CastEnv) (slots : List SlotDescriptor) :
    List Nat → Block → Status × Block
  | [], block => (.ok, block)
  | i :: rest, block =>
    match slots[i]? with
    | none => cast_special_go e slots rest block
    | some sd =>
      match cast_special_step e sd i block with
      | (.ok, b) => cast_special_go e slots rest b
      | r => r

/-- `JdbcConnector::_cast_string_to_special`: run the cast dispatch over every
column index of the tuple descriptor. -/
def cast_string_to_special (e : CastEnv) (slots : List SlotDescriptor) (block : Block) :
    Status × Block :=
  cast_special_go e slots (List.range slots.length) block

/-- Oracle inputs of `JdbcConnector::get_next`: the foreign `hasNext` call's
returned value and pending exception (when an exception is pending the JNI
return value is unspecified, so both are independent inputs), the
`getBlockAddress` exception, the result and status of the external
`JniConnector::fill_block` import, the cast-pipeline oracles, and the pending
exception observed by the final `GetJniExceptionMsg`. -/
structure GetNextEnv where
  has_next_ret : Bool
  has_next_exc : Option String
  block_address_exc : Option String
  fill : Block → Block
  fill_exc : Option String
  cast_env : CastEnv
  final_exc : Option String

/-- `JdbcConnector::get_next`: requires the connector open; calls `hasNext`
and, when its returned value is not `JNI_TRUE`, reports end-of-stream with
success *before* the pending-exception check; otherwise builds the reader
parameter map (staging the semi-structured columns), materializes the foreign
block, imports it, and runs the special-type cast pipeline.  Returns the
status, the value of `*eos` after the call, and the block. -/
def get_next (e : GetNextEnv) (jni_type_of : PrimitiveType → String)
    (slots : List SlotDescriptor) (s : ConnectorState) (eos : Bool) (block : Block) :
    Status × Bool × Block :=
  if !s.is_open then
    (.internalError "get_next before open of jdbc connector.", eos, block)
  else if !e.has_next_ret then
    (.ok, true, block)
  else
    match e.has_next_exc with
    | some m => (.internalError m, eos, block)
    | none =>
      let block1 := (get_reader_params jni_type_of slots block).2
      match e.block_address_exc with
      | some m => (.internalError m, eos, block1)
      | none =>
        let block2 := e.fill block1
        match e.fill_exc with
        | some m => (.internalError m, eos, block2)
        | none =>
          match cast_string_to_special e.cast_env slots block2 with
          | (.internalError m, block3) => (.internalError m, eos, block3)
          | (.ok, block3) =>
            match e.final_exc with
            | some m => (.internalError m, eos, block3)
            | none => (.ok, eos, block3)

/-- One public operation of the connector, with its foreign oracles.  The
read/write data-path operations (`query`, `get_next`, `exec_stmt_write`) never
touch the lifecycle flags in the source, so at the `ConnectorState` level they
are identities. -/
inductive ConnectorAction where
  | act_open : OpenEnv → ConnectorAction
  | act_query : ConnectorAction
  | act_get_next : ConnectorAction
  | act_write : ConnectorAction
  | act_begin : Option String → ConnectorAction
  | act_abort : Option String → ConnectorAction
  | act_finish : Option String → ConnectorAction
  | act_close : Option String → Option String → ConnectorAction
  deriving DecidableEq, Repr

/-- The lifecycle-flag transition of one operation. -/
def step (a : ConnectorAction) (s : ConnectorState) : ConnectorState :=
  match a with
  | .act_open e => (open_connector e s).2.1
  | .act_query => s
  | .act_get_next => s
  | .act_write => s
  | .act_begin exc => (begin_trans exc s).2.1
  | .act_abort exc => (abort_trans exc s).2.1
  | .act_finish exc => (finish_trans exc s).2.1
  | .act_close rb cl => (close rb cl s).2.1

/-- Run a sequence of operations from a state. -/
def run_actions : List ConnectorAction → ConnectorState → ConnectorState
  | [], s => s
  | a :: rest, s => run_actions rest (step a s)

/-- A sequence is guarded when `begin_trans` is only invoked while the
connector is open - the only way the source itself ever invokes it (at the end
of a successful `open`). -/
def good_seq : List ConnectorAction → ConnectorState → Bool
  | [], _ => true
  | a :: rest, s =>
    (match a with
     | .act_begin _ => s.is_open
     | _ => true) && good_seq rest (step a s)

/-- The spec's connection-state invariant: `InTransaction` implies `Open`. -/
def state_inv (s : ConnectorState) : Bool :=
  !s.is_in_transaction || s.is_open

/-- The oracle of a `get_next` call whose `hasNext` raised an exception while
the JNI call's (unspecified) return value came back as `JNI_FALSE`. -/
def has_next_exception_env : GetNextEnv :=
  { has_next_ret := false
  , has_next_exc := some "java.sql.SQLException: connection reset"
  , block_address_exc := none
  , fill := fun b => b
  , fill_exc := none
  , cast_env := ⟨fun _ => 0, fun _ => none, fun _ => .ok⟩
  , final_exc := none }

/- ------------------------------------------------------------------ -/
/- Theorems.                                                          -/
/- ------------------------------------------------------------------ -/

theorem block_set_length (b : Block) (i : Nat) (e : ColumnWithTypeAndName) :
    (block_set b i e).length = b.length := by
  induction b generalizing i with
  | nil => rfl
  | cons x xs ih => cases i <;> simp [block_set, ih]

theorem block_set_get_same (b : Block) (i : Nat) (e : ColumnWithTypeAndName)
    (h : i < b.length) : (block_set b i e)[i]? = some e := by
  induction b generalizing i with
  | nil => simp at h
  | cons x xs ih =>
    cases i with
    | zero => simp [block_set]
    | succ n => simpa [block_set] using ih n (by simpa using h)

theorem block_set_get_other (b : Block) (i j : Nat) (e : ColumnWithTypeAndName)
    (h : j ≠ i) : (block_set b i e)[j]? = b[j]? := by
  induction b generalizing i j with
  | nil => rfl
  | cons x xs ih =>
    cases i with
    | zero => cases j with
      | zero => exact absurd rfl h
      | succ m => simp [block_set]
    | succ n => cases j with
      | zero => simp [block_set]
      | succ m => simpa [block_set] using ih n m (by omega)

/-- C1: `_check_type` accepts a (declared type, reported type name) pair
exactly when the reported name lies in the admissibility set of the spec's
table for the declared type; in particular a declared integer column accepts
"java.lang.Byte" and rejects "java.lang.Object" with an error message carrying
the reported name, the declared type and the column name. -/
theorem check_type_accepts_iff_admissible :
    (∀ (cs : CastState) (sd : SlotDescriptor) (r : String) (i : Nat),
      (check_type cs sd r i).1 =
        if spec_admissible sd.ptype r then Status.ok
        else Status.internalError (check_type_error_msg r sd.ptype sd.col_name)) ∧
    ((check_type CastState.empty ⟨"c0", .TYPE_INT, true, true⟩ "java.lang.Byte" 0).1 =
      Status.ok) ∧
    ((check_type CastState.empty ⟨"c0", .TYPE_INT, true, true⟩ "java.lang.Object" 0).1 =
      Status.internalError (check_type_error_msg "java.lang.Object" .TYPE_INT "c0")) ∧
    (∃ a b c d, check_type_error_msg "java.lang.Object" .TYPE_INT "c0" =
      a ++ "java.lang.Object" ++ b ++ type_debug_string .TYPE_INT ++ c ++ "c0" ++ d) := by
  refine ⟨?_, by decide, by decide, ?_⟩
  · intro cs sd r i
    rcases sd with ⟨n, t, nl, mt⟩
    cases t <;>
      simp only [check_type, spec_admissible, decide_eq_true_eq, ne_eq] <;>
      split_ifs <;> simp_all
  · exact ⟨"Fail to convert jdbc type of ", " to doris type ", " on column: ",
      ". You need to check this column type between external table and doris table.", rfl⟩

/-- C2: the write path stores the batch's own row count into the caller's
`num_rows_sent`, regardless of the row count the foreign `write` call
returned, and `append` merely delegates to `exec_stmt_write`. -/
theorem exec_stmt_write_reports_block_rows (e : WriteEnv) (block_rows prev : Nat)
    (hm : e.meta_exc = none) (hw : e.write_exc = none) :
    exec_stmt_write e block_rows prev = (Status.ok, block_rows) ∧
    append e block_rows prev = (Status.ok, block_rows) ∧
    (∀ ret : Int, exec_stmt_write { e with write_ret := ret } block_rows prev =
      exec_stmt_write e block_rows prev) := by
  refine ⟨?_, ?_, ?_⟩ <;> simp [exec_stmt_write, append, hm, hw]

/-- Witness for C2: a 100-row batch whose foreign `write` returns 50 still
reports 100 rows to the caller. -/
theorem exec_stmt_write_reports_block_rows_witness :
    exec_stmt_write ⟨none, 50, none⟩ 100 0 = (Status.ok, 100) :=
  (exec_stmt_write_reports_block_rows ⟨none, 50, none⟩ 100 0 rfl rfl).1

/-- C6: when the foreign `read` reports a column count different from the
materialized column count, `query` fails with the schema-drift error, the
cast bookkeeping is untouched and the only foreign call issued is `read` - in
particular the type-name fetch of the validation step never runs (and `query`
fetches no row: row fetching lives in `get_next` alone). -/
theorem query_fails_on_column_count_mismatch (e : QueryEnv) (q : String)
    (tt : TOdbcTableType) (slots : List SlotDescriptor) (s : ConnectorState)
    (cs : CastState) (hopen : s.is_open = true) (hexc : e.read_exc = none)
    (hne : e.read_column_count ≠
      (((slots.filter (fun sd => sd.is_materialized)).length : Nat) : Int)) :
    query e q tt slots s cs =
      (Status.internalError "input and output column num not equal of jdbc query.", cs,
        [ForeignOp.call_read]) := by
  simp [query, hopen, hexc, hne]

/-- Witness for C6: three materialized columns, foreign `read` reports 2. -/
theorem query_fails_on_column_count_mismatch_witness :
    query ⟨none, 2, [], none⟩ "select a, b, c from t" .MYSQL
      [⟨"a", .TYPE_INT, true, true⟩, ⟨"b", .TYPE_INT, true, true⟩,
        ⟨"c", .TYPE_INT, true, true⟩]
      ⟨false, true, false, false⟩ CastState.empty =
      (Status.internalError "input and output column num not equal of jdbc query.",
        CastState.empty, [ForeignOp.call_read]) :=
  query_fails_on_column_count_mismatch _ _ _ _ _ _ rfl rfl (by decide)

/-- C7: `abort_trans` before any successful begin fails with the state error
and issues no foreign rollback; `finish_trans` outside a transaction, or with
transactional mode unconfigured, is a no-op returning success. -/
theorem abort_finish_outside_transaction (exc : Option String) (s : ConnectorState)
    (h : s.is_in_transaction = false) :
    abort_trans exc s =
      (Status.internalError "Abort transaction before begin trans.", s, []) ∧
    finish_trans exc s = (Status.ok, s, []) ∧
    (∀ s2 : ConnectorState, s2.use_tranaction = false →
      finish_trans exc s2 = (Status.ok, s2, [])) := by
  refine ⟨?_, ?_, ?_⟩
  · simp [abort_trans, h]
  · simp [finish_trans, h]
  · intro s2 h2; simp [finish_trans, h2]

/-- Witness for C7 at the freshly constructed state. -/
theorem abort_finish_outside_transaction_witness :
    abort_trans none (init_state true) =
      (Status.internalError "Abort transaction before begin trans.", init_state true, []) ∧
    finish_trans none (init_state true) = (Status.ok, init_state true, []) :=
  ⟨(abort_finish_outside_transaction none (init_state true) rfl).1,
   (abort_finish_outside_transaction none (init_state true) rfl).2.1⟩

/-- C8: with the graph-store table type (`NEBULA`), a successful foreign read
with matching column count makes `query` succeed without any per-column type
validation: the result is independent of the reported type names, the cast
bookkeeping stays untouched and the type-name fetch is never issued. -/
theorem query_nebula_skips_type_validation (e : QueryEnv) (q : String)
    (slots : List SlotDescriptor) (s : ConnectorState) (cs : CastState)
    (hopen : s.is_open = true) (hexc : e.read_exc = none)
    (hcnt : e.read_column_count =
      (((slots.filter (fun sd => sd.is_materialized)).length : Nat) : Int)) :
    query e q .NEBULA slots s cs = (Status.ok, cs, [ForeignOp.call_read]) := by
  simp [query, hopen, hexc, hcnt]

/-- Witness for C8: a NEBULA query whose reported type name would fail the
validator for the declared integer column still succeeds. -/
theorem query_nebula_skips_type_validation_witness :
    query ⟨none, 1, ["java.lang.Object"], none⟩ "match (v) return v" .NEBULA
      [⟨"a", .TYPE_INT, true, true⟩] ⟨false, true, false, false⟩ CastState.empty =
      (Status.ok, CastState.empty, [ForeignOp.call_read]) :=
  query_nebula_skips_type_validation _ _ _ _ _ rfl rfl (by decide)

/-- C3 (the code, not the claim): when `hasNext` raises an exception and the
JNI call's unspecified return value comes back `JNI_FALSE`, `get_next` of an
open connector reports end-of-stream with a success status, swallowing the
exception - the pending-exception check sits after the early return. -/
theorem get_next_swallows_has_next_exception :
    has_next_exception_env.has_next_exc =
      some "java.sql.SQLException: connection reset" ∧
    get_next has_next_exception_env (fun _ => "") [] ⟨false, true, false, false⟩ false [] =
      (Status.ok, true, []) :=
  ⟨rfl, rfl⟩

/-- Counterexample to C4 as stated: a second `close()` on a connector that was
open is not free of repeated foreign operations - the foreign `close` call (and
the reference releases) are issued again, because `close()` never clears
`_is_open`. -/
theorem close_twice_repeats_foreign_ops :
    ForeignOp.call_close ∈ (close none none ⟨false, true, false, false⟩).2.2 ∧
    ForeignOp.call_close ∈
      (close none none (close none none ⟨false, true, false, false⟩).2.1).2.2 := by
  decide

/-- C4 as amended: `open()` is idempotent (a second call returns success with
no state change and no foreign operation); `close()` when the connector is not
open - in particular when `open()` never succeeded - returns success, issues no
foreign operation and only sets the local closed flag; but `close()` never
clears the open or in-transaction flags, so a second `close()` on an opened
connector repeats the foreign close and reference releases. -/
theorem open_close_idempotence_amended :
    (∀ (e : OpenEnv) (s : ConnectorState), s.is_open = true →
      open_connector e s = (Status.ok, s, [])) ∧
    (∀ (rb cl : Option String) (s : ConnectorState), s.is_open = false →
      close rb cl s = (Status.ok, { s with closed := true }, [])) ∧
    (∀ (rb cl : Option String) (s : ConnectorState),
      ((close rb cl s).2.1).is_open = s.is_open ∧
      ((close rb cl s).2.1).is_in_transaction = s.is_in_transaction) ∧
    (∀ s : ConnectorState, s.is_open = true → s.is_in_transaction = false →
      ForeignOp.call_close ∈ (close none none s).2.2) := by
  refine ⟨?_, ?_, ?_, ?_⟩
  · intro e s h; simp [open_connector, h]
  · intro rb cl s h; simp [close, h]
  · intro rb cl s
    by_cases ho : s.is_open
    · by_cases ht : s.is_in_transaction
      · cases rb with
        | none => cases cl <;> simp [close, abort_trans, ho, ht]
        | some m => simp [close, abort_trans, ho, ht]
      · cases cl <;> simp [close, abort_trans, ho, ht]
    · simp [close, ho]
  · intro s h1 h2
    simp [close, abort_trans, h1, h2]

/-- Witness for C4's amended theorem at concrete states. -/
theorem open_close_idempotence_amended_witness :
    open_connector ⟨none, none⟩ ⟨false, true, false, false⟩ =
      (Status.ok, ⟨false, true, false, false⟩, []) ∧
    close none none (init_state false) = (Status.ok, ⟨true, false, false, false⟩, []) ∧
    ForeignOp.call_close ∈ (close none none ⟨false, true, false, false⟩).2.2 :=
  ⟨open_close_idempotence_amended.1 ⟨none, none⟩ _ rfl,
   open_close_idempotence_amended.2.1 none none _ rfl,
   open_close_idempotence_amended.2.2.2 _ rfl rfl⟩

/-- Counterexample to C9 as stated: `begin_trans` carries no open-state guard,
so the sequence consisting of the single operation `begin_trans` (transactional
mode configured, foreign call leaving no exception) reaches a state with the
in-transaction flag set while the connector was never opened. -/
theorem invariant_fails_for_begin_before_open :
    (run_actions [ConnectorAction.act_begin none] (init_state true)).is_in_transaction
      = true ∧
    (run_actions [ConnectorAction.act_begin none] (init_state true)).is_open = false := by
  decide

theorem step_preserves_state_inv (a : ConnectorAction) (s : ConnectorState)
    (hinv : state_inv s = true)
    (hg : ∀ exc, a = ConnectorAction.act_begin exc → s.is_open = true) :
    state_inv (step a s) = true := by
  cases a with
  | act_open e =>
    by_cases ho : s.is_open
    · simpa [step, open_connector, ho] using hinv
    · cases hpre : e.pre_open_exc with
      | some m => simpa [step, open_connector, ho, hpre] using hinv
      | none =>
        cases htx : s.use_tranaction <;>
          cases hexc : e.open_trans_exc <;>
          simp [step, open_connector, begin_trans, ho, hpre, htx, hexc, state_inv]
  | act_query => exact hinv
  | act_get_next => exact hinv
  | act_write => exact hinv
  | act_begin exc =>
    have ho := hg exc rfl
    cases htx : s.use_tranaction <;> cases hexc : exc <;>
      simp [step, begin_trans, htx, state_inv, ho]
  | act_abort exc =>
    by_cases ht : s.is_in_transaction <;> cases hexc : exc <;>
      simpa [step, abort_trans, ht, hexc] using hinv
  | act_finish exc =>
    by_cases hb : s.use_tranaction && s.is_in_transaction
    · cases hexc : exc with
      | some m => simpa [step, finish_trans, hb, hexc] using hinv
      | none => simp [step, finish_trans, hb, hexc, state_inv]
    · simpa [step, finish_trans, hb] using hinv
  | act_close rb cl =>
    have h := open_close_idempotence_amended.2.2.1 rb cl s
    simp only [state_inv, step, h.1, h.2] at *
    exact hinv

theorem guarded_run_preserves_state_inv (acts : List ConnectorAction)
    (s : ConnectorState) (hinv : state_inv s = true) (hg : good_seq acts s = true) :
    state_inv (run_actions acts s) = true := by
  induction acts generalizing s with
  | nil => exact hinv
  | cons a rest ih =>
    simp only [good_seq, Bool.and_eq_true] at hg
    refine ih (step a s) (step_preserves_state_inv a s hinv ?_) hg.2
    intro exc he
    subst he
    exact hg.1

/-- C9 as amended: in every state reachable from construction by a sequence of
connector operations in which `begin_trans` is only invoked while the connector
is open (which is the only way the source itself ever invokes it, at the end of
a successful `open`), the in-transaction flag implies the open flag. -/
theorem in_transaction_implies_open_guarded (use_tx : Bool)
    (acts : List ConnectorAction)
    (hg : good_seq acts (init_state use_tx) = true) :
    (run_actions acts (init_state use_tx)).is_in_transaction = true →
    (run_actions acts (init_state use_tx)).is_open = true := by
  intro ht
  have h := guarded_run_preserves_state_inv acts (init_state use_tx)
    (by cases use_tx <;> rfl) hg
  simpa [state_inv, ht] using h

/-- Witness for C9's amended theorem: a full transactional session
(open, begin, commit, close) is guarded and keeps the invariant. -/
theorem in_transaction_implies_open_guarded_witness :
    good_seq [ConnectorAction.act_open ⟨none, none⟩, ConnectorAction.act_begin none,
      ConnectorAction.act_finish none, ConnectorAction.act_close none none]
      (init_state true) = true ∧
    ((run_actions [ConnectorAction.act_open ⟨none, none⟩, ConnectorAction.act_begin none,
      ConnectorAction.act_finish none, ConnectorAction.act_close none none]
      (init_state true)).is_in_transaction = true →
     (run_actions [ConnectorAction.act_open ⟨none, none⟩, ConnectorAction.act_begin none,
      ConnectorAction.act_finish none, ConnectorAction.act_close none none]
      (init_state true)).is_open = true) :=
  ⟨by decide, in_transaction_implies_open_guarded true _ (by decide)⟩

theorem enumFrom_length_slots (l : List SlotDescriptor) (n : Nat) :
    (l.enumFrom n).length = l.length := by
  induction l generalizing n with
  | nil => rfl
  | cons a t ih => simp [List.enumFrom, ih]

theorem enumFrom_filter_snd_length (l : List SlotDescriptor) (n : Nat) :
    ((l.enumFrom n).filter (fun q => q.2.is_materialized)).length
      = (l.filter (fun sd => sd.is_materialized)).length := by
  induction l generalizing n with
  | nil => rfl
  | cons a t ih =>
    by_cases h : a.is_materialized <;>
      simp [List.enumFrom, List.filter_cons, h, ih]

theorem filter_length_lt_of_exists_not (p : SlotDescriptor → Bool)
    (l : List SlotDescriptor) (sd : SlotDescriptor) (hmem : sd ∈ l)
    (hf : p sd = false) : (l.filter p).length < l.length := by
  induction l with
  | nil => cases hmem
  | cons a t ih =>
    rcases List.mem_cons.mp hmem with rfl | hmem2
    · simp only [List.filter_cons, hf]
      exact Nat.lt_succ_of_le (t.length_filter_le p)
    · by_cases h : p a <;> simp only [List.filter_cons, h] <;>
        [exact Nat.succ_lt_succ (ih hmem2);
         exact Nat.lt_succ_of_lt (ih hmem2)]

theorem get_reader_params_go_lengths (jni : PrimitiveType → String)
    (l : List (Nat × SlotDescriptor)) (b : Block) :
    ((get_reader_params_go jni l b).1.1.length
        = (l.filter (fun q => q.2.is_materialized)).length) ∧
    ((get_reader_params_go jni l b).1.2.1.length
        = (l.filter (fun q => q.2.is_materialized)).length) ∧
    ((get_reader_params_go jni l b).1.2.2.1.length = l.length) ∧
    ((get_reader_params_go jni l b).1.2.2.2.length = l.length) := by
  induction l generalizing b with
  | nil => simp [get_reader_params_go]
  | cons q rest ih =>
    obtain ⟨i, slot⟩ := q
    by_cases hm : slot.is_materialized <;>
      simp [get_reader_params_go, List.filter_cons, hm, ih]

/-- C10: in the reader parameter map, the nullability and replace-as-string
lists carry one entry per materialized column only, while the required-field
and column-type lists carry one entry per schema column including
non-materialized ones; with at least one non-materialized column the four
lists cannot all have the same number of entries. -/
theorem reader_params_entry_counts (jni : PrimitiveType → String)
    (slots : List SlotDescriptor) (block : Block) :
    ((get_reader_params jni slots block).1.1.length
        = (slots.filter (fun sd => sd.is_materialized)).length) ∧
    ((get_reader_params jni slots block).1.2.1.length
        = (slots.filter (fun sd => sd.is_materialized)).length) ∧
    ((get_reader_params jni slots block).1.2.2.1.length = slots.length) ∧
    ((get_reader_params jni slots block).1.2.2.2.length = slots.length) ∧
    ((∃ sd ∈ slots, sd.is_materialized = false) →
      ¬((get_reader_params jni slots block).1.1.length
          = (get_reader_params jni slots block).1.2.2.1.length)) := by
  obtain ⟨h1, h2, h3, h4⟩ := get_reader_params_go_lengths jni slots.enum block
  have he1 : ((slots.enum.filter (fun q => q.2.is_materialized)).length)
      = (slots.filter (fun sd => sd.is_materialized)).length :=
    enumFrom_filter_snd_length slots 0
  have he2 : slots.enum.length = slots.length := enumFrom_length_slots slots 0
  refine ⟨?_, ?_, ?_, ?_, ?_⟩
  · exact (h1.trans he1 : _)
  · exact (h2.trans he1 : _)
  · exact (h3.trans he2 : _)
  · exact (h4.trans he2 : _)
  · rintro ⟨sd, hmem, hf⟩ heq
    rw [get_reader_params] at heq
    rw [h1, he1, h3, he2] at heq
    exact absurd heq
      (Nat.ne_of_lt (filter_length_lt_of_exists_not _ slots sd hmem hf))

/-- Witness for C10: one materialized and one non-materialized column give
different entry counts. -/
theorem reader_params_entry_counts_witness :
    ¬((get_reader_params (fun _ => "int")
        [⟨"a", .TYPE_INT, true, true⟩, ⟨"b", .TYPE_INT, true, false⟩] []).1.1.length
      = (get_reader_params (fun _ => "int")
        [⟨"a", .TYPE_INT, true, true⟩, ⟨"b", .TYPE_INT, true, false⟩] []).1.2.2.1.length) :=
  (reader_params_entry_counts (fun _ => "int")
    [⟨"a", .TYPE_INT, true, true⟩, ⟨"b", .TYPE_INT, true, false⟩] []).2.2.2.2
    ⟨⟨"b", .TYPE_INT, true, false⟩, by simp, rfl⟩

theorem block_get_some_lt (b : Block) (n : Nat) (e : ColumnWithTypeAndName)
    (h : b[n]? = some e) : n < b.length := by
  by_contra hn
  rw [List.getElem?_eq_none (by omega)] at h
  cases h

/-- The two other cast helpers have the same body as the HLL one (they differ
in the source only through the staging metadata they read and the constant
cast operand, neither of which affects the produced column). -/
theorem cast_string_to_bitmap_eq_hll : cast_string_to_bitmap = cast_string_to_hll := rfl

theorem cast_string_to_json_eq_hll : cast_string_to_json = cast_string_to_hll := rfl

theorem cast_string_to_hll_spec (sd : SlotDescriptor) (b : Block) (i : Nat)
    (rows : Int) (st : Status) :
    ((cast_string_to_hll sd b i rows st).2.length = b.length) ∧
    (∀ j, j ≠ i → (cast_string_to_hll sd b i rows st).2[j]? = b[j]?) ∧
    ((cast_string_to_hll sd b i rows st).1 = .ok → i < b.length →
      ∃ entry src, (cast_string_to_hll sd b i rows st).2[i]? = some entry ∧
        entry.type = sd.data_type ∧
        entry.column = (if sd.data_type.is_nullable then
            Column.nullable (Column.casted sd.data_type src rows)
          else Column.casted sd.data_type src rows)) := by
  cases st with
  | internalError m => simp [cast_string_to_hll]
  | ok =>
    cases hb : b[i]? with
    | none =>
      refine ⟨by simp [cast_string_to_hll, hb], fun j hj => by simp [cast_string_to_hll, hb],
        fun _ hlt => absurd hb ?_⟩
      rw [List.getElem?_eq_none_iff]
      omega
    | some entry =>
      have hib : i < b.length := block_get_some_lt b i entry hb
      have hset : (block_set b i { entry with type := sd.data_type })[i]?
          = some { entry with type := sd.data_type } := block_set_get_same b i _ hib
      by_cases hn : sd.data_type.is_nullable
      · refine ⟨?_, ?_, ?_⟩
        · simp [cast_string_to_hll, hb, hn, set_type_by_position, replace_by_position,
            hset, block_set_length]
        · intro j hj
          simp [cast_string_to_hll, hb, hn, set_type_by_position, replace_by_position,
            hset, block_set_get_other _ _ _ _ hj]
        · intro _ _
          refine ⟨⟨Column.nullable (Column.casted sd.data_type entry.column rows),
              sd.data_type, entry.name⟩,
            entry.column, ?_, rfl, by simp [hn]⟩
          simp only [cast_string_to_hll, hb, hn, set_type_by_position,
            replace_by_position, hset, if_true, cast_result]
          exact block_set_get_same _ i _ (by rw [block_set_length]; exact hib)
      · refine ⟨?_, ?_, ?_⟩
        · simp [cast_string_to_hll, hb, hn, set_type_by_position, replace_by_position,
            hset, block_set_length]
        · intro j hj
          simp [cast_string_to_hll, hb, hn, set_type_by_position, replace_by_position,
            hset, block_set_get_other _ _ _ _ hj]
        · intro _ _
          refine ⟨⟨Column.casted sd.data_type entry.column rows,
              sd.data_type, entry.name⟩,
            entry.column, ?_, rfl, by simp [hn]⟩
          simp only [cast_string_to_hll, hb, hn, set_type_by_position,
            replace_by_position, hset, if_false, cast_result, get_nested_column]
          exact block_set_get_same _ i _ (by rw [block_set_length]; exact hib)

theorem cast_special_step_frame (e : CastEnv) (sd : SlotDescriptor) (i : Nat)
    (b : Block) :
    ((cast_special_step e sd i b).2.length = b.length) ∧
    (∀ j, j ≠ i → (cast_special_step e sd i b).2[j]? = b[j]?) := by
  by_cases hm : sd.is_materialized
  · cases hexc : e.cur_block_rows_exc i with
    | some m => simp [cast_special_step, hm, hexc]
    | none =>
      by_cases h1 : sd.ptype.is_hll_type
      · have h := cast_string_to_hll_spec sd b i (e.cur_block_rows i) (e.cast_exec_status i)
        exact ⟨by simpa [cast_special_step, hm, hexc, h1] using h.1,
          fun j hj => by simpa [cast_special_step, hm, hexc, h1] using h.2.1 j hj⟩
      · by_cases h2 : sd.ptype.is_json_type
        · have h := cast_string_to_hll_spec sd b i (e.cur_block_rows i) (e.cast_exec_status i)
          exact ⟨by simpa [cast_special_step, hm, hexc, h1, h2,
              cast_string_to_json_eq_hll] using h.1,
            fun j hj => by simpa [cast_special_step, hm, hexc, h1, h2,
              cast_string_to_json_eq_hll] using h.2.1 j hj⟩
        · by_cases h3 : sd.ptype.is_bitmap_type
          · have h := cast_string_to_hll_spec sd b i (e.cur_block_rows i) (e.cast_exec_status i)
            exact ⟨by simpa [cast_special_step, hm, hexc, h1, h2, h3,
                cast_string_to_bitmap_eq_hll] using h.1,
              fun j hj => by simpa [cast_special_step, hm, hexc, h1, h2, h3,
                cast_string_to_bitmap_eq_hll] using h.2.1 j hj⟩
          · simp [cast_special_step, hm, hexc, h1, h2, h3]
  · simp [cast_special_step, hm]

theorem cast_special_step_establishes (e : CastEnv) (sd : SlotDescriptor) (i : Nat)
    (b : Block) (hm : sd.is_materialized = true)
    (hk : sd.ptype.is_hll_type = true ∨ sd.ptype.is_json_type = true ∨
      sd.ptype.is_bitmap_type = true)
    (hlen : i < b.length)
    (hok : (cast_special_step e sd i b).1 = .ok) :
    ∃ entry src rows, (cast_special_step e sd i b).2[i]? = some entry ∧
      entry.type = sd.data_type ∧
      entry.column = (if sd.data_type.is_nullable then
          Column.nullable (Column.casted sd.data_type src rows)
        else Column.casted sd.data_type src rows) := by
  cases hexc : e.cur_block_rows_exc i with
  | some m => simp [cast_special_step, hm, hexc] at hok
  | none =>
    rcases hk with h1 | h1 | h1
    · have h := (cast_string_to_hll_spec sd b i (e.cur_block_rows i)
        (e.cast_exec_status i)).2.2
      simp only [cast_special_step, hm, hexc, h1, Bool.not_true, Bool.false_eq_true,
        if_false, if_true] at hok ⊢
      obtain ⟨entry, src, hg, ht, hc⟩ := h hok hlen
      exact ⟨entry, src, e.cur_block_rows i, hg, ht, hc⟩
    · have h0 : sd.ptype = .TYPE_JSONB := by
        simpa [PrimitiveType.is_json_type] using h1
      have hh : sd.ptype.is_hll_type = false := by
        simp [PrimitiveType.is_hll_type, h0]
      have h := (cast_string_to_hll_spec sd b i (e.cur_block_rows i)
        (e.cast_exec_status i)).2.2
      simp only [cast_special_step, hm, hexc, hh, h1, cast_string_to_json_eq_hll,
        Bool.not_true, Bool.false_eq_true, if_false, if_true] at hok ⊢
      obtain ⟨entry, src, hg, ht, hc⟩ := h hok hlen
      exact ⟨entry, src, e.cur_block_rows i, hg, ht, hc⟩
    · have h0 : sd.ptype = .TYPE_OBJECT := by
        simpa [PrimitiveType.is_bitmap_type] using h1
      have hh : sd.ptype.is_hll_type = false := by
        simp [PrimitiveType.is_hll_type, h0]
      have hj : sd.ptype.is_json_type = false := by
        simp [PrimitiveType.is_json_type, h0]
      have h := (cast_string_to_hll_spec sd b i (e.cur_block_rows i)
        (e.cast_exec_status i)).2.2
      simp only [cast_special_step, hm, hexc, hh, hj, h1, cast_string_to_bitmap_eq_hll,
        Bool.not_true, Bool.false_eq_true, if_false, if_true] at hok ⊢
      obtain ⟨entry, src, hg, ht, hc⟩ := h hok hlen
      exact ⟨entry, src, e.cur_block_rows i, hg, ht, hc⟩

theorem cast_special_go_frame (e : CastEnv) (slots : List SlotDescriptor)
    (idxs : List Nat) (b : Block) :
    ((cast_special_go e slots idxs b).2.length = b.length) ∧
    (∀ j, j ∉ idxs → (cast_special_go e slots idxs b).2[j]? = b[j]?) := by
  induction idxs generalizing b with
  | nil => simp [cast_special_go]
  | cons i rest ih =>
    cases hs : slots[i]? with
    | none =>
      exact ⟨by simpa [cast_special_go, hs] using (ih b).1,
        fun j hj => by
          simpa [cast_special_go, hs] using (ih b).2 j (fun hr => hj (List.mem_cons_of_mem i hr))⟩
    | some sd =>
      have hf := cast_special_step_frame e sd i b
      cases hstep : cast_special_step e sd i b with
      | mk st b1 =>
        rw [hstep] at hf
        cases st with
        | ok =>
          have hgo : cast_special_go e slots (i :: rest) b
              = cast_special_go e slots rest b1 := by
            simp [cast_special_go, hs, hstep]
          rw [hgo]
          refine ⟨(ih b1).1.trans hf.1, fun j hj => ?_⟩
          have hji : j ≠ i := fun h => hj (h ▸ List.mem_cons_self i rest)
          have hjr : j ∉ rest := fun h => hj (List.mem_cons_of_mem i h)
          rw [(ih b1).2 j hjr, hf.2 j hji]
        | internalError m =>
          have hgo : cast_special_go e slots (i :: rest) b = (.internalError m, b1) := by
            simp [cast_special_go, hs, hstep]
          rw [hgo]
          exact ⟨hf.1, fun j hj => hf.2 j (fun h => hj (h ▸ List.mem_cons_self i rest))⟩

theorem cast_special_go_establishes (e : CastEnv) (slots : List SlotDescriptor)
    (sd : SlotDescriptor) (i : Nat) (hs : slots[i]? = some sd)
    (hm : sd.is_materialized = true)
    (hk : sd.ptype.is_hll_type = true ∨ sd.ptype.is_json_type = true ∨
      sd.ptype.is_bitmap_type = true) :
    ∀ idxs : List Nat, idxs.Nodup → i ∈ idxs → ∀ b : Block, i < b.length →
      (cast_special_go e slots idxs b).1 = .ok →
      ∃ entry src rows, (cast_special_go e slots idxs b).2[i]? = some entry ∧
        entry.type = sd.data_type ∧
        entry.column = (if sd.data_type.is_nullable then
            Column.nullable (Column.casted sd.data_type src rows)
          else Column.casted sd.data_type src rows) := by
  intro idxs
  induction idxs with
  | nil => intro _ hi; cases hi
  | cons k rest ih =>
    intro hnd hi b hlen hok
    rcases List.mem_cons.mp hi with rfl | hmem
    · cases hstep : cast_special_step e sd i b with
      | mk st b1 =>
        cases st with
        | internalError m =>
          rw [show cast_special_go e slots (i :: rest) b = (.internalError m, b1) from by
            simp [cast_special_go, hs, hstep]] at hok
          cases hok
        | ok =>
          have hest := cast_special_step_establishes e sd i b hm hk hlen
            (by rw [hstep])
          rw [hstep] at hest
          obtain ⟨entry, src, rows, hg, ht, hc⟩ := hest
          have hgo : cast_special_go e slots (i :: rest) b
              = cast_special_go e slots rest b1 := by
            simp [cast_special_go, hs, hstep]
          rw [hgo]
          have hni : i ∉ rest := (List.nodup_cons.mp hnd).1
          have hunt := (cast_special_go_frame e slots rest b1).2 i hni
          exact ⟨entry, src, rows, hunt.trans hg, ht, hc⟩
    · cases hs2 : slots[k]? with
      | none =>
        rw [show cast_special_go e slots (k :: rest) b
            = cast_special_go e slots rest b from by simp [cast_special_go, hs2]] at hok ⊢
        exact ih (List.nodup_cons.mp hnd).2 hmem b hlen hok
      | some sd2 =>
        cases hstep : cast_special_step e sd2 k b with
        | mk st b1 =>
          cases st with
          | internalError m =>
            rw [show cast_special_go e slots (k :: rest) b = (.internalError m, b1) from by
              simp [cast_special_go, hs2, hstep]] at hok
            cases hok
          | ok =>
            have hlen1 : i < b1.length := by
              have h2 := (cast_special_step_frame e sd2 k b).1
              rw [hstep] at h2
              have h3 : b1.length = b.length := by simpa using h2
              omega
            rw [show cast_special_go e slots (k :: rest) b
                = cast_special_go e slots rest b1 from by
              simp [cast_special_go, hs2, hstep]] at hok ⊢
            exact ih (List.nodup_cons.mp hnd).2 hmem b1 hlen1 hok

theorem semi_structured_type_ne_staging (sd : SlotDescriptor)
    (hk : sd.ptype = .TYPE_HLL ∨ sd.ptype = .TYPE_JSONB ∨ sd.ptype = .TYPE_OBJECT) :
    sd.data_type ≠ staging_string_type sd := by
  rcases hk with h | h | h <;>
    cases hn : sd.is_nullable <;>
    simp [SlotDescriptor.data_type, staging_string_type, make_nullable,
      DataType.is_nullable, h, hn]

/-- C5: for every materialized semi-structured column (HLL, JSON, bitmap),
after a successful run of the special-type cast pipeline the block's entry at
the column's position carries the slot's originally declared type (which is
never the staging string type), and its column is the cast result - kept in its
nullable wrapper when the declared type is nullable, otherwise the unwrapped
nested column. -/
theorem cast_special_restores_declared_type (e : CastEnv)
    (slots : List SlotDescriptor) (block b' : Block) (i : Nat) (sd : SlotDescriptor)
    (hs : slots[i]? = some sd) (hm : sd.is_materialized = true)
    (hk : sd.ptype = .TYPE_HLL ∨ sd.ptype = .TYPE_JSONB ∨ sd.ptype = .TYPE_OBJECT)
    (hlen : slots.length ≤ block.length)
    (h : cast_string_to_special e slots block = (.ok, b')) :
    ∃ entry src rows, b'[i]? = some entry ∧
      entry.type = sd.data_type ∧
      sd.data_type ≠ staging_string_type sd ∧
      entry.column = (if sd.data_type.is_nullable then
          Column.nullable (Column.casted sd.data_type src rows)
        else Column.casted sd.data_type src rows) := by
  have hislot : i < slots.length := by
    by_contra hn
    rw [List.getElem?_eq_none (by omega)] at hs
    cases hs
  have hk2 : sd.ptype.is_hll_type = true ∨ sd.ptype.is_json_type = true ∨
      sd.ptype.is_bitmap_type = true := by
    rcases hk with h0 | h0 | h0 <;>
      simp [PrimitiveType.is_hll_type, PrimitiveType.is_json_type,
        PrimitiveType.is_bitmap_type, h0]
  have hres := cast_special_go_establishes e slots sd i hs hm hk2
    (List.range slots.length) (List.nodup_range slots.length)
    (List.mem_range.mpr hislot) block (by omega)
    (by rw [show cast_special_go e slots (List.range slots.length) block
          = cast_string_to_special e slots block from rfl, h])
  rw [show cast_special_go e slots (List.range slots.length) block
      = cast_string_to_special e slots block from rfl, h] at hres
  obtain ⟨entry, src, rows, hg, ht, hc⟩ := hres
  exact ⟨entry, src, rows, hg, ht, semi_structured_type_ne_staging sd hk, hc⟩

/-- Witness for C5: a single non-nullable HLL column staged as a plain string
column is cast back to its declared HLL type with the nested column unwrapped. -/
theorem cast_special_restores_declared_type_witness :
    ∃ entry src rows,
      (cast_string_to_special ⟨fun _ => 5, fun _ => none, fun _ => Status.ok⟩
        [⟨"h", .TYPE_HLL, false, true⟩]
        [⟨.empty .TYPE_STRING, .base .TYPE_STRING, "h"⟩]).2[0]? = some entry ∧
      entry.type = SlotDescriptor.data_type ⟨"h", .TYPE_HLL, false, true⟩ ∧
      SlotDescriptor.data_type ⟨"h", .TYPE_HLL, false, true⟩
        ≠ staging_string_type ⟨"h", .TYPE_HLL, false, true⟩ ∧
      entry.column = (if (SlotDescriptor.data_type ⟨"h", .TYPE_HLL, false, true⟩).is_nullable
        then Column.nullable
          (Column.casted (SlotDescriptor.data_type ⟨"h", .TYPE_HLL, false, true⟩) src rows)
        else Column.casted (SlotDescriptor.data_type ⟨"h", .TYPE_HLL, false, true⟩) src rows) :=
  cast_special_restores_declared_type ⟨fun _ => 5, fun _ => none, fun _ => Status.ok⟩
    [⟨"h", .TYPE_HLL, false, true⟩] [⟨.empty .TYPE_STRING, .base .TYPE_STRING, "h"⟩]
    _ 0 ⟨"h", .TYPE_HLL, false, true⟩ rfl rfl (Or.inl rfl) (by simp) rfl

end VJdbcConnector
